import Mathlib

/-!
Shallow embedding of `src/examples/graphql-jit/server.ts` from the
graphql-helix repository: the query-compilation cache and execution
pipeline of the graphql-jit example server.

The handler reads a cache entry for the raw query text into three closure
locals, runs `processRequest` with caching `parse` / `validate` / `execute`
callbacks, and then dispatches on the result type (`RESPONSE`, `PUSH`, or
anything else).  The callbacks and the dispatch are translated from the
source file; the orchestration inside `processRequest` (graphql-helix code
that is part of this repository but not under `src/`) and the semantics of
a push result's `subscribe`/`unsubscribe` are modelled from the spec and
flagged as such in the relevant doc comments.
-/

namespace GraphqlJit

/-- JavaScript string disjunction `a || b`: the empty string is the only
falsy string. -/
def jsOr (a b : String) : String := if a = "" then b else a

/-- `const cacheKey = query || ""` (server.ts), where `query` comes from
`getGraphQLParameters` and may be absent (`undefined`). -/
def cacheKeyOf : Option String → String
  | none => ""
  | some q => jsOr q ""

/-- Result of graphql-jit `compileQuery`: either a compiled query carrying
an execution function, or a compile-error value (an execution result with
errors). -/
inductive Plan (Q E : Type) where
  | executable (query : Q)
  | compileError (err : E)
deriving DecidableEq

/-- graphql-jit `isCompiledQuery`: distinguishes the two variants. -/
def isCompiledQuery {Q E : Type} : Plan Q E → Bool
  | Plan.executable _ => true
  | Plan.compileError _ => false

/-- The per-query-text artifact entry stored in the lru cache.  The object
literals written by the callbacks are `\x7b document \x7d`,
`\x7b document, validationErrors \x7d` and
`\x7b compiledQuery, document, validationErrors \x7d`; a field a literal
does not mention is absent (`none`). -/
structure CacheEntry (D V Q E : Type) where
  document : Option D := none
  validationErrors : Option (List V) := none
  compiledQuery : Option (Plan Q E) := none
deriving DecidableEq

/-- Contents of the tiny-lru cache, keyed by the raw query text.  Capacity
and ttl eviction (`lru(1000, 3600000)`) are outside the claims treated
here, which assume the entry is neither evicted nor expired between
calls. -/
abbrev CacheMap (D V Q E : Type) := String → Option (CacheEntry D V Q E)

/-- tiny-lru `cache.set(key, value)`: stores `value` under `key`, replacing
any previously stored value wholesale (it does not merge objects). -/
def cacheSet {D V Q E : Type} (c : CacheMap D V Q E) (k : String)
    (e : CacheEntry D V Q E) : CacheMap D V Q E :=
  fun k2 => if k2 = k then some e else c k2

/-- Cumulative invocation counters for the four collaborator functions,
used to state the caching claims. -/
structure Counts where
  parseCalls : Nat := 0
  validateCalls : Nat := 0
  compileCalls : Nat := 0
  runCalls : Nat := 0
deriving DecidableEq

/-- The opaque collaborators the pipeline calls: graphql `parse` (throws on
a syntax error, hence `Except`), graphql `validate` (here `RU` stands for
the whole `(rules, typeInfo, options)` argument bundle), graphql-jit
`compileQuery` (with the operation name `N`), and the compiled query's
`.query` execution function (root and context values are fixed by the
server, so only the variables `VV` remain).  `emptyVars` is the `\x7b\x7d`
default of `variableValues || \x7b\x7d`. -/
structure Collab (O D PE RU V N Q E VV R : Type) where
  parseFn : String → O → Except PE D
  validateFn : D → RU → List V
  compileFn : D → N → Plan Q E
  runFn : Q → VV → R
  emptyVars : VV

/-- The outcome of one request through `processRequest` with the server's
callbacks: a parse failure, a non-empty validation result, a compile-error
value returned as the payload, or an execution result. -/
inductive PipelineResult (PE V E R : Type) where
  | parseFailure (err : PE)
  | validationFailure (errs : List V)
  | compileFailed (err : E)
  | data (r : R)
deriving DecidableEq

/-- Everything observable about one pipeline run: the result, the cache
contents afterwards, cumulative collaborator counters, and the document /
validation-errors / compiled-plan values the run actually used. -/
structure RunOutput (D PE V Q E R : Type) where
  result : PipelineResult PE V E R
  cache : CacheMap D V Q E
  counts : Counts
  docUsed : Option D
  vErrsUsed : Option (List V)
  planUsed : Option (Plan Q E)

/-- The `execute` callback of server.ts: on a miss of the closure local
`compiledQuery0` (captured from the cache read at the start of the
request), call `compileQuery` and write
`\x7b compiledQuery, document, validationErrors \x7d` back; then either run
the compiled query with `variableValues || \x7b\x7d`, or return the
compile-error value without executing it (`isCompiledQuery` branch). -/
def execStage {O D PE RU V N Q E VV R : Type} (C : Collab O D PE RU V N Q E VV R)
    (key : String) (d : D) (opName : N) (vars : Option VV)
    (compiledQuery0 : Option (Plan Q E)) (ve : List V)
    (cache : CacheMap D V Q E) (counts : Counts) : RunOutput D PE V Q E R :=
  let step :=
    match compiledQuery0 with
    | some cq => (cq, cache, counts)
    | none =>
      let cq := C.compileFn d opName
      (cq, cacheSet cache key
            { document := some d, validationErrors := some ve,
              compiledQuery := some cq },
       { counts with compileCalls := counts.compileCalls + 1 })
  match step with
  | (cq, cache1, counts1) =>
    match cq with
    | Plan.executable q =>
      { result := PipelineResult.data (C.runFn q (vars.getD C.emptyVars)),
        cache := cache1,
        counts := { counts1 with runCalls := counts1.runCalls + 1 },
        docUsed := some d, vErrsUsed := some ve,
        planUsed := some (Plan.executable q) }
    | Plan.compileError e =>
      { result := PipelineResult.compileFailed e, cache := cache1,
        counts := counts1, docUsed := some d, vErrsUsed := some ve,
        planUsed := some (Plan.compileError e) }

/-- The `validate` callback of server.ts followed by the execute stage: on
a miss of the closure local `validationErrors0`, call `validate` and write
`\x7b document, validationErrors \x7d` back (the local `document` is `d` by
this point).  The abort on a non-empty validation result is modelled from
the spec: `processRequest` (graphql-helix code not under `src/`) reports
the validation errors verbatim and stops (spec sections 4.2 and 7). -/
def afterParse {O D PE RU V N Q E VV R : Type} (C : Collab O D PE RU V N Q E VV R)
    (key : String) (d : D) (rules : RU) (opName : N) (vars : Option VV)
    (validationErrors0 : Option (List V)) (compiledQuery0 : Option (Plan Q E))
    (cache : CacheMap D V Q E) (counts : Counts) : RunOutput D PE V Q E R :=
  let step :=
    match validationErrors0 with
    | some ve => (ve, cache, counts)
    | none =>
      let ve := C.validateFn d rules
      (ve, cacheSet cache key { document := some d, validationErrors := some ve },
       { counts with validateCalls := counts.validateCalls + 1 })
  match step with
  | (ve, cache1, counts1) =>
    if ve.isEmpty then
      execStage C key d opName vars compiledQuery0 ve cache1 counts1
    else
      { result := PipelineResult.validationFailure ve, cache := cache1,
        counts := counts1, docUsed := some d, vErrsUsed := some ve,
        planUsed := none }

/-- One request through the server handler's caching pipeline: read the
cache entry for `query || ""` into the closure locals `compiledQuery0`,
`document0`, `validationErrors0`, then run `processRequest` with the
caching callbacks.  The `parse` callback is translated from the source: on
a miss it calls `parse` and writes `\x7b document \x7d` back; if `parse`
throws, the write is unreached, so nothing is cached.  The orchestration
calling the callbacks in order — parse, abort on a thrown parse error,
validate, abort on validation errors, execute — is modelled from the spec:
graphql-helix `processRequest` is code of this repository that is not
under `src/` (spec sections 4.2 and 6). -/
def runPipeline {O D PE RU V N Q E VV R : Type} (C : Collab O D PE RU V N Q E VV R)
    (query : String) (opts : O) (rules : RU) (opName : N) (vars : Option VV)
    (cache : CacheMap D V Q E) (counts : Counts) : RunOutput D PE V Q E R :=
  let key := jsOr query ""
  let cached := cache key
  let compiledQuery0 := cached.bind (fun e => e.compiledQuery)
  let document0 := cached.bind (fun e => e.document)
  let validationErrors0 := cached.bind (fun e => e.validationErrors)
  match document0 with
  | some d =>
    afterParse C key d rules opName vars validationErrors0 compiledQuery0 cache counts
  | none =>
    match C.parseFn query opts with
    | Except.error pe =>
      { result := PipelineResult.parseFailure pe, cache := cache,
        counts := { counts with parseCalls := counts.parseCalls + 1 },
        docUsed := none, vErrsUsed := none, planUsed := none }
    | Except.ok d =>
      afterParse C key d rules opName vars validationErrors0 compiledQuery0
        (cacheSet cache key { document := some d })
        { counts with parseCalls := counts.parseCalls + 1 }

/-- The aggregate of a sequence of runs: final cache, final counters, and
the individual run outputs in order. -/
structure SeqOutput (D PE V Q E R : Type) where
  cache : CacheMap D V Q E
  counts : Counts
  outs : List (RunOutput D PE V Q E R)

/-- `n` sequential requests with the same query text (and the same options,
rules, operation name and variables), each seeing the cache state left by
the previous one. -/
def runSeq {O D PE RU V N Q E VV R : Type} (C : Collab O D PE RU V N Q E VV R)
    (query : String) (opts : O) (rules : RU) (opName : N) (vars : Option VV) :
    CacheMap D V Q E → Counts → Nat → SeqOutput D PE V Q E R
  | cache, counts, 0 => ⟨cache, counts, []⟩
  | cache, counts, n + 1 =>
    let out := runPipeline C query opts rules opName vars cache counts
    let rest := runSeq C query opts rules opName vars out.cache out.counts n
    ⟨rest.cache, rest.counts, out :: rest.outs⟩

/-- Entries the pipeline's own writes can produce: every write mentions the
document, and the only write mentioning a compiled plan also mentions the
validation errors. -/
def entryWF {D V Q E : Type} (e : CacheEntry D V Q E) : Bool :=
  (!e.validationErrors.isSome || e.document.isSome) &&
  (!e.compiledQuery.isSome || (e.validationErrors.isSome && e.document.isSome))

/-- One observable event at a live PUSH session: the producer emitting a
value, the producer completing naturally, or the client connection
closing. -/
inductive SessionEvent (A : Type) where
  | emit (a : A)
  | complete
  | clientClose
deriving DecidableEq

/-- State of one server-sent-events session: whether the producer has been
cancelled, whether it has completed naturally, how many times
`result.unsubscribe()` has been invoked, and the values forwarded to the
response so far. -/
structure Session (A : Type) where
  cancelled : Bool
  completed : Bool
  unsubscribeCalls : Nat
  forwarded : List A
deriving DecidableEq

/-- Session state right after `res.writeHead` for a PUSH result. -/
def initSession {A : Type} : Session A := ⟨false, false, 0, []⟩

/-- Whether an event is the client-connection-close event. -/
def isClose {A : Type} : SessionEvent A → Bool
  | SessionEvent.clientClose => true
  | _ => false

/-- Session transition.  The `clientClose` case is the `req.on("close")`
handler of server.ts: it calls `result.unsubscribe()` unconditionally, with
no guard on prior completion or cancellation.  That unsubscribe cancels the
producer, and that a cancelled or completed producer delivers no further
values to the `subscribe` callback, is modelled from the spec: the push
result's `subscribe`/`unsubscribe` are graphql-helix code of this
repository not under `src/` (spec sections 4.4 and 5). -/
def sessionStep {A : Type} (s : Session A) : SessionEvent A → Session A
  | SessionEvent.emit a =>
    if s.cancelled || s.completed then s
    else { s with forwarded := s.forwarded ++ [a] }
  | SessionEvent.complete => { s with completed := true }
  | SessionEvent.clientClose =>
    { s with cancelled := true, unsubscribeCalls := s.unsubscribeCalls + 1 }

/-- Run a session over a list of events. -/
def runSession {A : Type} (s : Session A) (evs : List (SessionEvent A)) : Session A :=
  evs.foldl sessionStep s

/-- An observable action the handler performs on the express response
object. -/
inductive TransportAction (P : Type) where
  | setHeader (name value : String)
  | statusCode (code : Nat)
  | json (payload : P)
  | writeHead (code : Nat) (headers : List (String × String))
  | write (chunk : String)
deriving DecidableEq

/-- The result of `processRequest` as dispatched by the handler: a single
`RESPONSE`, a streaming `PUSH` (with the values its subscription will
deliver), or the remaining variant (`MULTIPART_RESPONSE`, used for @defer
and @stream). -/
inductive ProcessedResult (P A : Type) where
  | response (status : Nat) (headers : List (String × String)) (payload : P)
  | push (events : List A)
  | multipartResponse
deriving DecidableEq

/-- The headers of the `res.writeHead(200, ...)` call for a PUSH result. -/
def sseHeaders : List (String × String) :=
  [("Content-Type", "text/event-stream"), ("Connection", "keep-alive"),
   ("Cache-Control", "no-cache")]

/-- One server-sent-events data frame, `res.write` payload. -/
def sseFrame {A : Type} (encode : A → String) (a : A) : String :=
  "data: " ++ encode a ++ "\n\n"

/-- Transport actions the handler performs for a `processRequest` result.
`RESPONSE`: set each result header, set the status, send the json payload.
`PUSH`: write the SSE head, then one write per value the subscription
delivers.  Anything else falls to the final else branch of server.ts,
which contains only a comment (`GraphQL JIT does not currently support
@defer and @stream`) and performs no action at all. -/
def handleResult {P A : Type} (encode : A → String) :
    ProcessedResult P A → List (TransportAction P)
  | ProcessedResult.response st hs p =>
    hs.map (fun h => TransportAction.setHeader h.1 h.2) ++
      [TransportAction.statusCode st, TransportAction.json p]
  | ProcessedResult.push evs =>
    TransportAction.writeHead 200 sseHeaders ::
      evs.map (fun a => TransportAction.write (sseFrame encode a))
  | ProcessedResult.multipartResponse => []

/-- Collaborator fixture whose stages all succeed. -/
def Cok : Collab Nat Nat Nat Nat Nat Nat Nat Nat Nat Nat :=
  { parseFn := fun _ _ => Except.ok 7, validateFn := fun _ _ => [],
    compileFn := fun _ _ => Plan.executable 5, runFn := fun q v => q + v,
    emptyVars := 0 }

/-- Collaborator fixture whose parser always fails. -/
def CparseFail : Collab Nat Nat Nat Nat Nat Nat Nat Nat Nat Nat :=
  { Cok with parseFn := fun _ _ => Except.error 3 }

/-- Collaborator fixture whose validator always reports an error. -/
def Cinvalid : Collab Nat Nat Nat Nat Nat Nat Nat Nat Nat Nat :=
  { Cok with validateFn := fun _ _ => [9] }

/-- The empty cache. -/
def emptyCache : CacheMap Nat Nat Nat Nat := fun _ => none

/-- A cache holding, under key "q", an entry with validation errors but no
document — a shape the pipeline's own writes never produce. -/
def strayCache : CacheMap Nat Nat Nat Nat :=
  fun k => if k = "q" then some { validationErrors := some [1] } else none

/-- A cache holding, under key "q", a cached document and a cached
non-empty validation result. -/
def hitCache : CacheMap Nat Nat Nat Nat :=
  fun k =>
    if k = "q" then some { document := some 3, validationErrors := some [7] }
    else none

/-- A cache holding, under key "q", a full entry whose compiled plan is a
compile error. -/
def fullErrCache : CacheMap Nat Nat Nat Nat :=
  fun k =>
    if k = "q" then
      some { document := some 3, validationErrors := some [],
             compiledQuery := some (Plan.compileError 11) }
    else none

theorem jsOr_empty (s : String) : jsOr s "" = s := by
  by_cases h : s = "" <;> simp [jsOr, h]

/-- A run whose cache entry is already complete (document, empty validation
result, executable plan) touches no collaborator except the execution
function, writes nothing, and uses the cached plan. -/
theorem runPipeline_steady {O D PE RU V N Q E VV R : Type}
    (C : Collab O D PE RU V N Q E VV R) (query : String) (opts : O) (rules : RU)
    (opName : N) (vars : Option VV) (cache : CacheMap D V Q E) (counts : Counts)
    (d : D) (q0 : Q)
    (hq : cache query = some ⟨some d, some [], some (Plan.executable q0)⟩) :
    runPipeline C query opts rules opName vars cache counts =
      ⟨PipelineResult.data (C.runFn q0 (vars.getD C.emptyVars)), cache,
       { counts with runCalls := counts.runCalls + 1 },
       some d, some [], some (Plan.executable q0)⟩ := by
  simp [runPipeline, afterParse, execStage, jsOr_empty, hq]

/-- A run from an absent entry with all three stages succeeding invokes
each collaborator once and leaves a complete entry in the cache. -/
theorem runPipeline_fresh {O D PE RU V N Q E VV R : Type}
    (C : Collab O D PE RU V N Q E VV R) (query : String) (opts : O) (rules : RU)
    (opName : N) (vars : Option VV) (cache : CacheMap D V Q E) (counts : Counts)
    (d : D) (q0 : Q)
    (h0 : cache query = none) (hp : C.parseFn query opts = Except.ok d)
    (hv : C.validateFn d rules = [])
    (hc : C.compileFn d opName = Plan.executable q0) :
    (runPipeline C query opts rules opName vars cache counts).cache query =
      some ⟨some d, some [], some (Plan.executable q0)⟩ ∧
    (runPipeline C query opts rules opName vars cache counts).counts =
      ⟨counts.parseCalls + 1, counts.validateCalls + 1,
       counts.compileCalls + 1, counts.runCalls + 1⟩ ∧
    (runPipeline C query opts rules opName vars cache counts).planUsed =
      some (Plan.executable q0) := by
  refine ⟨?_, ?_, ?_⟩ <;>
    simp [runPipeline, afterParse, execStage, jsOr_empty, cacheSet, h0, hp, hv, hc]

/-- Sequential runs from a complete cache entry never touch the parser,
validator or compiler, and every run uses the cached plan. -/
theorem runSeq_steady {O D PE RU V N Q E VV R : Type}
    (C : Collab O D PE RU V N Q E VV R) (query : String) (opts : O) (rules : RU)
    (opName : N) (vars : Option VV) (d : D) (q0 : Q) (n : Nat) :
    ∀ (cache : CacheMap D V Q E) (counts : Counts),
      cache query = some ⟨some d, some [], some (Plan.executable q0)⟩ →
      (runSeq C query opts rules opName vars cache counts n).counts.parseCalls =
          counts.parseCalls ∧
      (runSeq C query opts rules opName vars cache counts n).counts.validateCalls =
          counts.validateCalls ∧
      (runSeq C query opts rules opName vars cache counts n).counts.compileCalls =
          counts.compileCalls ∧
      ∀ o ∈ (runSeq C query opts rules opName vars cache counts n).outs,
        o.planUsed = some (Plan.executable q0) := by
  induction n with
  | zero => intro cache counts hq; simp [runSeq]
  | succ n ih =>
    intro cache counts hq
    have hstep := runPipeline_steady C query opts rules opName vars cache counts d q0 hq
    obtain ⟨ih1, ih2, ih3, ih4⟩ :=
      ih cache { counts with runCalls := counts.runCalls + 1 } hq
    refine ⟨?_, ?_, ?_, ?_⟩
    · simp [runSeq, hstep, ih1]
    · simp [runSeq, hstep, ih2]
    · simp [runSeq, hstep, ih3]
    · intro o ho
      simp only [runSeq, hstep] at ho
      rcases List.mem_cons.1 ho with ho | ho
      · rw [ho]
      · exact ih4 o ho

/-- Claim C3: for a fixed query text that parses, validates and compiles
successfully, N sequential calls to the pipeline (entry never evicted)
invoke the parser, the validator and the compiler exactly once each, and
every one of the N calls uses the identical compiled plan. -/
theorem caching_idempotent {O D PE RU V N Q E VV R : Type}
    (C : Collab O D PE RU V N Q E VV R) (query : String) (opts : O) (rules : RU)
    (opName : N) (vars : Option VV) (cache : CacheMap D V Q E)
    (d : D) (q0 : Q) (n : Nat)
    (h0 : cache query = none) (hp : C.parseFn query opts = Except.ok d)
    (hv : C.validateFn d rules = [])
    (hc : C.compileFn d opName = Plan.executable q0) :
    (runSeq C query opts rules opName vars cache ⟨0, 0, 0, 0⟩ (n + 1)).counts.parseCalls = 1 ∧
    (runSeq C query opts rules opName vars cache ⟨0, 0, 0, 0⟩ (n + 1)).counts.validateCalls = 1 ∧
    (runSeq C query opts rules opName vars cache ⟨0, 0, 0, 0⟩ (n + 1)).counts.compileCalls = 1 ∧
    ∀ o ∈ (runSeq C query opts rules opName vars cache ⟨0, 0, 0, 0⟩ (n + 1)).outs,
      o.planUsed = some (Plan.executable q0) := by
  obtain ⟨hf1, hf2, hf3⟩ :=
    runPipeline_fresh C query opts rules opName vars cache ⟨0, 0, 0, 0⟩ d q0 h0 hp hv hc
  obtain ⟨hs1, hs2, hs3, hs4⟩ :=
    runSeq_steady C query opts rules opName vars d q0 n
      (runPipeline C query opts rules opName vars cache ⟨0, 0, 0, 0⟩).cache
      (runPipeline C query opts rules opName vars cache ⟨0, 0, 0, 0⟩).counts hf1
  have hf2c : (runPipeline C query opts rules opName vars cache ⟨0, 0, 0, 0⟩).counts =
      ⟨1, 1, 1, 1⟩ := by simpa using hf2
  rw [hf2c] at hs1 hs2 hs3 hs4
  refine ⟨?_, ?_, ?_, ?_⟩
  · simpa [runSeq, hf2c] using hs1
  · simpa [runSeq, hf2c] using hs2
  · simpa [runSeq, hf2c] using hs3
  · intro o ho
    simp only [runSeq, hf2c] at ho
    rcases List.mem_cons.1 ho with ho | ho
    · rw [ho]; exact hf3
    · exact hs4 o ho

/-- Claim C4: if parsing fails, nothing is written to the cache (the cache
is returned unchanged), so a second call with the same query text invokes
the parser again. -/
theorem parse_failure_not_cached {O D PE RU V N Q E VV R : Type}
    (C : Collab O D PE RU V N Q E VV R) (query : String) (opts : O) (rules : RU)
    (opName : N) (vars : Option VV) (cache : CacheMap D V Q E) (counts : Counts)
    (pe : PE)
    (hd : (cache query).bind (fun en => en.document) = none)
    (hp : C.parseFn query opts = Except.error pe) :
    (runPipeline C query opts rules opName vars cache counts).result =
      PipelineResult.parseFailure pe ∧
    (runPipeline C query opts rules opName vars cache counts).cache = cache ∧
    (runPipeline C query opts rules opName vars cache counts).counts =
      { counts with parseCalls := counts.parseCalls + 1 } ∧
    (runPipeline C query opts rules opName vars
        (runPipeline C query opts rules opName vars cache counts).cache
        (runPipeline C query opts rules opName vars cache counts).counts).counts.parseCalls =
      counts.parseCalls + 2 := by
  have h1 : runPipeline C query opts rules opName vars cache counts =
      ⟨PipelineResult.parseFailure pe, cache,
       { counts with parseCalls := counts.parseCalls + 1 }, none, none, none⟩ := by
    simp [runPipeline, jsOr_empty, hd, hp]
  refine ⟨by simp [h1], by simp [h1], by simp [h1], ?_⟩
  rw [h1]
  simp [runPipeline, jsOr_empty, hd, hp]

/-- Claim C5: a validation result is cached whether or not it is empty; if
it is non-empty, the first call reports it and a second call reports the
identical error set without invoking the validator again. -/
theorem validation_errors_cached {O D PE RU V N Q E VV R : Type}
    (C : Collab O D PE RU V N Q E VV R) (query : String) (opts : O) (rules : RU)
    (opName : N) (vars : Option VV) (cache : CacheMap D V Q E)
    (d : D) (ve : List V)
    (h0 : cache query = none) (hp : C.parseFn query opts = Except.ok d)
    (hv : C.validateFn d rules = ve) (hne : ve ≠ []) :
    (runPipeline C query opts rules opName vars cache ⟨0, 0, 0, 0⟩).result =
      PipelineResult.validationFailure ve ∧
    (runPipeline C query opts rules opName vars cache ⟨0, 0, 0, 0⟩).counts.validateCalls = 1 ∧
    (runPipeline C query opts rules opName vars
        (runPipeline C query opts rules opName vars cache ⟨0, 0, 0, 0⟩).cache
        (runPipeline C query opts rules opName vars cache ⟨0, 0, 0, 0⟩).counts).result =
      PipelineResult.validationFailure ve ∧
    (runPipeline C query opts rules opName vars
        (runPipeline C query opts rules opName vars cache ⟨0, 0, 0, 0⟩).cache
        (runPipeline C query opts rules opName vars cache ⟨0, 0, 0, 0⟩).counts).counts.validateCalls = 1 := by
  have hne' : ve.isEmpty = false := by
    cases ve with
    | nil => exact absurd rfl hne
    | cons a l => rfl
  have h1 : runPipeline C query opts rules opName vars cache ⟨0, 0, 0, 0⟩ =
      ⟨PipelineResult.validationFailure ve,
       cacheSet (cacheSet cache query { document := some d })
         query { document := some d, validationErrors := some ve },
       ⟨1, 1, 0, 0⟩, some d, some ve, none⟩ := by
    simp [runPipeline, afterParse, jsOr_empty, h0, hp, hv, hne']
  have h2 : (cacheSet (cacheSet cache query { document := some d })
      query { document := some d, validationErrors := some ve }) query =
      some { document := some d, validationErrors := some ve } := by
    simp [cacheSet]
  refine ⟨by simp [h1], by simp [h1], ?_, ?_⟩ <;>
    · rw [h1]
      simp [runPipeline, afterParse, jsOr_empty, h2, hne']

/-- Claim C6: a compiled plan of the compile-error variant — whether found
in the cache or freshly compiled — is returned as the result itself and
the plan's execution function is never invoked. -/
theorem compile_error_never_executed {O D PE RU V N Q E VV R : Type}
    (C : Collab O D PE RU V N Q E VV R) (query : String) (opts : O) (rules : RU)
    (opName : N) (vars : Option VV) (cache : CacheMap D V Q E) (counts : Counts)
    (d : D) (e : E)
    (hd : (cache query).bind (fun en => en.document) = some d)
    (hv : (cache query).bind (fun en => en.validationErrors) = some [])
    (hp : (cache query).bind (fun en => en.compiledQuery) =
            some (Plan.compileError e) ∨
          ((cache query).bind (fun en => en.compiledQuery) = none ∧
           C.compileFn d opName = Plan.compileError e)) :
    (runPipeline C query opts rules opName vars cache counts).result =
      PipelineResult.compileFailed e ∧
    (runPipeline C query opts rules opName vars cache counts).counts.runCalls =
      counts.runCalls := by
  rcases hp with hp | ⟨hp, hc⟩
  · constructor <;>
      simp [runPipeline, afterParse, execStage, jsOr_empty, hd, hv, hp]
  · constructor <;>
      simp [runPipeline, afterParse, execStage, jsOr_empty, hd, hv, hp, hc]

/-- A run whose document is cached goes straight to the validate stage
with the closure locals read from the cache. -/
theorem runPipeline_docHit {O D PE RU V N Q E VV R : Type}
    (C : Collab O D PE RU V N Q E VV R) (query : String) (opts : O) (rules : RU)
    (opName : N) (vars : Option VV) (cache : CacheMap D V Q E) (counts : Counts)
    (d : D) (hd : (cache query).bind (fun en => en.document) = some d) :
    runPipeline C query opts rules opName vars cache counts =
      afterParse C query d rules opName vars
        ((cache query).bind fun en => en.validationErrors)
        ((cache query).bind fun en => en.compiledQuery) cache counts := by
  simp only [runPipeline, jsOr_empty]
  rw [hd]

/-- The validate stage with a cached validation result neither validates
nor writes. -/
theorem afterParse_veHit {O D PE RU V N Q E VV R : Type}
    (C : Collab O D PE RU V N Q E VV R) (key : String) (d : D) (rules : RU)
    (opName : N) (vars : Option VV) (cq0 : Option (Plan Q E)) (ve : List V)
    (cache : CacheMap D V Q E) (counts : Counts) :
    afterParse C key d rules opName vars (some ve) cq0 cache counts =
      if ve.isEmpty then execStage C key d opName vars cq0 ve cache counts
      else ⟨PipelineResult.validationFailure ve, cache, counts, some d, some ve,
            none⟩ := rfl

/-- The execute stage always reports the document and validation result it
was handed as the artifacts used. -/
theorem execStage_used {O D PE RU V N Q E VV R : Type}
    (C : Collab O D PE RU V N Q E VV R) (key : String) (d : D) (opName : N)
    (vars : Option VV) (cq0 : Option (Plan Q E)) (ve : List V)
    (cache : CacheMap D V Q E) (counts : Counts) :
    (execStage C key d opName vars cq0 ve cache counts).docUsed = some d ∧
    (execStage C key d opName vars cq0 ve cache counts).vErrsUsed = some ve := by
  rcases cq0 with _ | cq
  · cases hc : C.compileFn d opName <;> simp [execStage, hc]
  · cases cq <;> simp [execStage]

/-- Claim C9: when both the document and the validation result are cached,
the run consults neither its parse options nor its validation rules — two
requests differing only in those arguments produce identical outputs, and
the artifacts used are exactly the cached ones. -/
theorem cache_hit_ignores_options {O D PE RU V N Q E VV R : Type}
    (C : Collab O D PE RU V N Q E VV R) (query : String) (opName : N)
    (vars : Option VV) (cache : CacheMap D V Q E) (counts : Counts)
    (d : D) (ve : List V) (o1 o2 : O) (r1 r2 : RU)
    (hd : (cache query).bind (fun en => en.document) = some d)
    (hv : (cache query).bind (fun en => en.validationErrors) = some ve) :
    runPipeline C query o1 r1 opName vars cache counts =
      runPipeline C query o2 r2 opName vars cache counts ∧
    (runPipeline C query o1 r1 opName vars cache counts).docUsed = some d ∧
    (runPipeline C query o1 r1 opName vars cache counts).vErrsUsed = some ve := by
  simp only [runPipeline_docHit C query o1 r1 opName vars cache counts d hd,
             runPipeline_docHit C query o2 r2 opName vars cache counts d hd,
             hv, afterParse_veHit]
  refine ⟨trivial, ?_, ?_⟩
  · cases hb : ve.isEmpty
    · simp [hb]
    · simpa [hb] using
        (execStage_used C query d opName vars
          ((cache query).bind fun en => en.compiledQuery) ve cache counts).1
  · cases hb : ve.isEmpty
    · simp [hb]
    · simpa [hb] using
        (execStage_used C query d opName vars
          ((cache query).bind fun en => en.compiledQuery) ve cache counts).2

/-- The validate stage with no cached validation result validates and
writes the document together with the fresh validation result back. -/
theorem afterParse_veMiss {O D PE RU V N Q E VV R : Type}
    (C : Collab O D PE RU V N Q E VV R) (key : String) (d : D) (rules : RU)
    (opName : N) (vars : Option VV) (cq0 : Option (Plan Q E))
    (cache : CacheMap D V Q E) (counts : Counts) :
    afterParse C key d rules opName vars none cq0 cache counts =
      if (C.validateFn d rules).isEmpty then
        execStage C key d opName vars cq0 (C.validateFn d rules)
          (cacheSet cache key ⟨some d, some (C.validateFn d rules), none⟩)
          { counts with validateCalls := counts.validateCalls + 1 }
      else
        ⟨PipelineResult.validationFailure (C.validateFn d rules),
         cacheSet cache key ⟨some d, some (C.validateFn d rules), none⟩,
         { counts with validateCalls := counts.validateCalls + 1 },
         some d, some (C.validateFn d rules), none⟩ := rfl

/-- With a cached compiled plan the execute stage writes nothing. -/
theorem execStage_cqHit_cache {O D PE RU V N Q E VV R : Type}
    (C : Collab O D PE RU V N Q E VV R) (key : String) (d : D) (opName : N)
    (vars : Option VV) (cq : Plan Q E) (ve : List V)
    (cache : CacheMap D V Q E) (counts : Counts) :
    (execStage C key d opName vars (some cq) ve cache counts).cache = cache := by
  cases cq <;> rfl

/-- With no cached compiled plan the execute stage writes the full entry
back. -/
theorem execStage_cqMiss_cache {O D PE RU V N Q E VV R : Type}
    (C : Collab O D PE RU V N Q E VV R) (key : String) (d : D) (opName : N)
    (vars : Option VV) (ve : List V) (cache : CacheMap D V Q E) (counts : Counts) :
    (execStage C key d opName vars none ve cache counts).cache =
      cacheSet cache key ⟨some d, some ve, some (C.compileFn d opName)⟩ := by
  cases hc : C.compileFn d opName <;> simp [execStage, hc]

/-- Claim C2, as stated over every key and every prior entry, is false at a
concrete input: starting from an entry holding validation errors but no
document, the parse stage's write — which does not mention the
validationErrors field — replaces the stored entry, and the previously
present validationErrors field is gone afterwards. -/
theorem put_replace_drops_field_cex :
    (strayCache "q").bind (fun en => en.validationErrors) = some [1] ∧
    ((runPipeline Cok "q" 0 0 0 none strayCache ⟨0, 0, 0, 0⟩).cache "q").bind
      (fun en => en.validationErrors) = none := by
  constructor <;> rfl

/-- Claim C2 (amended): each `cache.set` replaces the stored entry
wholesale rather than merging, but every write passes along all artifact
fields the request has observed, so for every prior entry the pipeline's
own writes can produce — one whose document is present whenever any other
field is — every field present before the run and not mentioned in a write
is still present, with the same value, after the run. -/
theorem pipeline_writes_preserve_prior_fields {O D PE RU V N Q E VV R : Type}
    (C : Collab O D PE RU V N Q E VV R) (query : String) (opts : O) (rules : RU)
    (opName : N) (vars : Option VV) (cache : CacheMap D V Q E) (counts : Counts)
    (prior : CacheEntry D V Q E)
    (hprior : cache query = some prior) (hwf : entryWF prior = true) :
    (∀ d0, prior.document = some d0 →
      ((runPipeline C query opts rules opName vars cache counts).cache query).bind
        (fun en => en.document) = some d0) ∧
    (∀ ve0, prior.validationErrors = some ve0 →
      ((runPipeline C query opts rules opName vars cache counts).cache query).bind
        (fun en => en.validationErrors) = some ve0) ∧
    (∀ cq0, prior.compiledQuery = some cq0 →
      ((runPipeline C query opts rules opName vars cache counts).cache query).bind
        (fun en => en.compiledQuery) = some cq0) := by
  obtain ⟨pd, pv, pc⟩ := prior
  rcases pd with _ | d
  · rcases pv with _ | ve
    · rcases pc with _ | cq
      · exact ⟨fun d0 h => by simp at h, fun v0 h => by simp at h,
               fun c0 h => by simp at h⟩
      · simp [entryWF] at hwf
    · simp [entryWF] at hwf
  · have hd : (cache query).bind (fun en => en.document) = some d := by
      simp [hprior]
    rw [runPipeline_docHit C query opts rules opName vars cache counts d hd]
    simp only [hprior, Option.some_bind]
    rcases pv with _ | ve
    · rcases pc with _ | cq
      · rw [afterParse_veMiss]
        refine ⟨?_, ?_, ?_⟩
        · intro d0 h
          obtain rfl : d = d0 := by simpa using h
          cases hb : (C.validateFn d rules).isEmpty
          · simp [hb, cacheSet]
          · simp only [hb, if_true]
            rw [execStage_cqMiss_cache]
            simp [cacheSet]
        · intro v0 h; simp at h
        · intro c0 h; simp at h
      · simp [entryWF] at hwf
    · rw [afterParse_veHit]
      rcases pc with _ | cq
      · refine ⟨?_, ?_, ?_⟩
        · intro d0 h
          obtain rfl : d = d0 := by simpa using h
          cases hb : ve.isEmpty
          · simp [hb, hprior]
          · simp only [hb, if_true]
            rw [execStage_cqMiss_cache]
            simp [cacheSet]
        · intro v0 h
          obtain rfl : ve = v0 := by simpa using h
          cases hb : ve.isEmpty
          · simp [hb, hprior]
          · simp only [hb, if_true]
            rw [execStage_cqMiss_cache]
            simp [cacheSet]
        · intro c0 h; simp at h
      · refine ⟨?_, ?_, ?_⟩ <;> intro x h <;> cases hb : ve.isEmpty
        all_goals
          first
          | (simp only [hb, Bool.false_eq_true, if_false]
             simp [hprior] at h ⊢
             exact h)
          | (simp only [hb, if_true]
             rw [execStage_cqHit_cache]
             simp [hprior] at h ⊢
             exact h)

/-- Running a session over a cons of events steps once and continues. -/
theorem runSession_cons {A : Type} (s : Session A) (e : SessionEvent A)
    (evs : List (SessionEvent A)) :
    runSession s (e :: evs) = runSession (sessionStep s e) evs := rfl

/-- Events that are not a client close never change the unsubscribe count
or the cancellation flag. -/
theorem runSession_no_close {A : Type} (evs : List (SessionEvent A)) :
    ∀ s : Session A, (∀ e ∈ evs, isClose e = false) →
      (runSession s evs).unsubscribeCalls = s.unsubscribeCalls ∧
      (runSession s evs).cancelled = s.cancelled := by
  induction evs with
  | nil => exact fun s _ => ⟨rfl, rfl⟩
  | cons e evs ih =>
    intro s h
    have htail : ∀ x ∈ evs, isClose x = false :=
      fun x hx => h x (List.mem_cons_of_mem e hx)
    cases e with
    | emit a =>
      have hrec := ih (sessionStep s (SessionEvent.emit a)) htail
      have hstep : (sessionStep s (SessionEvent.emit a)).unsubscribeCalls =
            s.unsubscribeCalls ∧
          (sessionStep s (SessionEvent.emit a)).cancelled = s.cancelled := by
        by_cases hc : (s.cancelled || s.completed) = true <;>
          simp [sessionStep, hc]
      exact ⟨hrec.1.trans hstep.1, hrec.2.trans hstep.2⟩
    | complete =>
      have hrec := ih (sessionStep s SessionEvent.complete) htail
      exact ⟨hrec.1, hrec.2⟩
    | clientClose =>
      have := h SessionEvent.clientClose (List.mem_cons_self _ _)
      simp [isClose] at this

/-- Once the producer is cancelled, later events that are not a client
close forward nothing and perform no unsubscribe call. -/
theorem runSession_cancelled {A : Type} (evs : List (SessionEvent A)) :
    ∀ s : Session A, s.cancelled = true → (∀ e ∈ evs, isClose e = false) →
      (runSession s evs).forwarded = s.forwarded ∧
      (runSession s evs).unsubscribeCalls = s.unsubscribeCalls := by
  induction evs with
  | nil => exact fun s _ _ => ⟨rfl, rfl⟩
  | cons e evs ih =>
    intro s hc h
    have htail : ∀ x ∈ evs, isClose x = false :=
      fun x hx => h x (List.mem_cons_of_mem e hx)
    cases e with
    | emit a =>
      have hstep : sessionStep s (SessionEvent.emit a) = s := by
        simp [sessionStep, hc]
      rw [runSession_cons, hstep]
      exact ih s hc htail
    | complete =>
      rw [runSession_cons]
      exact ih (sessionStep s SessionEvent.complete) (by simp [sessionStep, hc]) htail
    | clientClose =>
      have := h SessionEvent.clientClose (List.mem_cons_self _ _)
      simp [isClose] at this

/-- Claim C8: a client disconnect during an open streaming session — one
close event, with no close before or after it — results in exactly one
unsubscribe call to the producer, and no value emitted after the
disconnect is forwarded to the transport. -/
theorem disconnect_cancels_once {A : Type} (pre post : List (SessionEvent A))
    (hpre : ∀ e ∈ pre, isClose e = false) (hpost : ∀ e ∈ post, isClose e = false) :
    (runSession initSession (pre ++ SessionEvent.clientClose :: post)).unsubscribeCalls = 1 ∧
    (runSession initSession (pre ++ SessionEvent.clientClose :: post)).forwarded =
      (runSession (A := A) initSession pre).forwarded := by
  have hsplit : runSession (A := A) initSession (pre ++ SessionEvent.clientClose :: post) =
      runSession (sessionStep (runSession initSession pre) SessionEvent.clientClose)
        post := by
    simp [runSession, List.foldl_append]
  obtain ⟨h1, h2⟩ := runSession_no_close pre initSession hpre
  obtain ⟨hf, hu⟩ := runSession_cancelled post
    (sessionStep (runSession initSession pre) SessionEvent.clientClose) rfl hpost
  constructor
  · rw [hsplit, hu]
    show (runSession (A := A) initSession pre).unsubscribeCalls + 1 = 1
    rw [h1]
    rfl
  · rw [hsplit, hf]
    rfl

/-- Claim C7: the raw query text is the cache key verbatim — no
normalization — so two requests hit the same cache entry exactly when
their raw query strings are identical. -/
theorem cache_key_verbatim (s1 s2 : String) :
    cacheKeyOf (some s1) = s1 ∧
    (cacheKeyOf (some s1) = cacheKeyOf (some s2) ↔ s1 = s2) := by
  constructor
  · simp [cacheKeyOf, jsOr_empty]
  · simp [cacheKeyOf, jsOr_empty]

/-- Claim C10: the connection-close handler calls `result.unsubscribe()`
unconditionally — in every session state, including one whose producer has
already completed naturally, a client close performs one more unsubscribe
call. -/
theorem close_always_unsubscribes {A : Type} (s : Session A) :
    (sessionStep s SessionEvent.clientClose).unsubscribeCalls =
      s.unsubscribeCalls + 1 ∧
    (sessionStep { s with completed := true }
        SessionEvent.clientClose).unsubscribeCalls = s.unsubscribeCalls + 1 := by
  constructor <;> rfl

/-- Claim C1, as stated, is false at a concrete input: for a
`MULTIPART_RESPONSE` result (the unsupported delivery mode) the handler
performs no transport action at all — the client receives nothing. -/
theorem unsupported_outcome_silently_dropped_cex :
    handleResult (P := Nat) (A := Nat) (fun n => toString n)
      ProcessedResult.multipartResponse = [] := rfl

/-- Claim C1 (amended): the handler responds for `RESPONSE` and `PUSH`
outcomes, but for the unsupported delivery mode it performs no transport
action whatsoever — the else branch is a no-op comment, so the unsupported
outcome is silently dropped rather than reported to the client. -/
theorem unsupported_outcome_response_actions {P A : Type} (encode : A → String)
    (st : Nat) (hs : List (String × String)) (p : P) (evs : List A) :
    handleResult encode (ProcessedResult.response st hs p) ≠ [] ∧
    handleResult encode (ProcessedResult.push (P := P) evs) ≠ [] ∧
    handleResult (P := P) encode ProcessedResult.multipartResponse = [] := by
  refine ⟨?_, ?_, rfl⟩ <;> simp [handleResult]

/-- Witness for claim C2 (amended): a concrete well-formed prior entry
whose cached validation errors survive a run. -/
theorem pipeline_writes_preserve_prior_fields_witness :
    hitCache "q" = some ⟨some 3, some [7], none⟩ ∧
    entryWF (⟨some 3, some [7], none⟩ : CacheEntry Nat Nat Nat Nat) = true ∧
    (∀ ve0, (⟨some 3, some [7], none⟩ : CacheEntry Nat Nat Nat Nat).validationErrors =
        some ve0 →
      ((runPipeline Cok "q" 0 0 0 none hitCache ⟨0, 0, 0, 0⟩).cache "q").bind
        (fun en => en.validationErrors) = some ve0) :=
  ⟨rfl, rfl,
   (pipeline_writes_preserve_prior_fields Cok "q" 0 0 0 none hitCache ⟨0, 0, 0, 0⟩
      ⟨some 3, some [7], none⟩ rfl rfl).2.1⟩

/-- Witness for claim C3: two sequential calls on a fresh cache with all
stages succeeding produce one parse, one validate, one compile, and both
calls use the identical plan. -/
theorem caching_idempotent_witness :
    emptyCache "q" = none ∧ Cok.parseFn "q" 0 = Except.ok 7 ∧
    Cok.validateFn 7 0 = [] ∧ Cok.compileFn 7 0 = Plan.executable 5 ∧
    ((runSeq Cok "q" 0 0 0 none emptyCache ⟨0, 0, 0, 0⟩ (1 + 1)).counts.parseCalls = 1 ∧
     (runSeq Cok "q" 0 0 0 none emptyCache ⟨0, 0, 0, 0⟩ (1 + 1)).counts.validateCalls = 1 ∧
     (runSeq Cok "q" 0 0 0 none emptyCache ⟨0, 0, 0, 0⟩ (1 + 1)).counts.compileCalls = 1 ∧
     ∀ o ∈ (runSeq Cok "q" 0 0 0 none emptyCache ⟨0, 0, 0, 0⟩ (1 + 1)).outs,
       o.planUsed = some (Plan.executable 5)) :=
  ⟨rfl, rfl, rfl, rfl,
   caching_idempotent Cok "q" 0 0 0 none emptyCache 7 5 1 rfl rfl rfl rfl⟩

/-- Witness for claim C4: a failing parse on an empty cache leaves the
cache unchanged and a second call parses again. -/
theorem parse_failure_not_cached_witness :
    (emptyCache "q").bind (fun en => en.document) = none ∧
    CparseFail.parseFn "q" 0 = Except.error 3 ∧
    ((runPipeline CparseFail "q" 0 0 0 none emptyCache ⟨0, 0, 0, 0⟩).result =
       PipelineResult.parseFailure 3 ∧
     (runPipeline CparseFail "q" 0 0 0 none emptyCache ⟨0, 0, 0, 0⟩).cache = emptyCache ∧
     (runPipeline CparseFail "q" 0 0 0 none emptyCache ⟨0, 0, 0, 0⟩).counts = ⟨1, 0, 0, 0⟩ ∧
     (runPipeline CparseFail "q" 0 0 0 none
        (runPipeline CparseFail "q" 0 0 0 none emptyCache ⟨0, 0, 0, 0⟩).cache
        (runPipeline CparseFail "q" 0 0 0 none emptyCache ⟨0, 0, 0, 0⟩).counts).counts.parseCalls =
       2) :=
  ⟨rfl, rfl,
   parse_failure_not_cached CparseFail "q" 0 0 0 none emptyCache ⟨0, 0, 0, 0⟩ 3 rfl rfl⟩

/-- Witness for claim C5: a non-empty validation result is cached and a
second call reports it without re-validating. -/
theorem validation_errors_cached_witness :
    emptyCache "q" = none ∧ Cinvalid.parseFn "q" 0 = Except.ok 7 ∧
    Cinvalid.validateFn 7 0 = [9] ∧ ([9] : List Nat) ≠ [] ∧
    ((runPipeline Cinvalid "q" 0 0 0 none emptyCache ⟨0, 0, 0, 0⟩).result =
       PipelineResult.validationFailure [9] ∧
     (runPipeline Cinvalid "q" 0 0 0 none emptyCache ⟨0, 0, 0, 0⟩).counts.validateCalls = 1 ∧
     (runPipeline Cinvalid "q" 0 0 0 none
        (runPipeline Cinvalid "q" 0 0 0 none emptyCache ⟨0, 0, 0, 0⟩).cache
        (runPipeline Cinvalid "q" 0 0 0 none emptyCache ⟨0, 0, 0, 0⟩).counts).result =
       PipelineResult.validationFailure [9] ∧
     (runPipeline Cinvalid "q" 0 0 0 none
        (runPipeline Cinvalid "q" 0 0 0 none emptyCache ⟨0, 0, 0, 0⟩).cache
        (runPipeline Cinvalid "q" 0 0 0 none emptyCache ⟨0, 0, 0, 0⟩).counts).counts.validateCalls =
       1) :=
  ⟨rfl, rfl, rfl, by decide,
   validation_errors_cached Cinvalid "q" 0 0 0 none emptyCache 7 [9] rfl rfl rfl
     (by decide)⟩

/-- Witness for claim C6: a cached compile-error plan is returned as the
result and the execution function is never run. -/
theorem compile_error_never_executed_witness :
    (fullErrCache "q").bind (fun en => en.document) = some 3 ∧
    (fullErrCache "q").bind (fun en => en.validationErrors) = some [] ∧
    ((fullErrCache "q").bind (fun en => en.compiledQuery) =
        some (Plan.compileError 11) ∨
      ((fullErrCache "q").bind (fun en => en.compiledQuery) = none ∧
       Cok.compileFn 3 0 = Plan.compileError 11)) ∧
    ((runPipeline Cok "q" 0 0 0 none fullErrCache ⟨0, 0, 0, 0⟩).result =
       PipelineResult.compileFailed 11 ∧
     (runPipeline Cok "q" 0 0 0 none fullErrCache ⟨0, 0, 0, 0⟩).counts.runCalls = 0) :=
  ⟨rfl, rfl, Or.inl rfl,
   compile_error_never_executed Cok "q" 0 0 0 none fullErrCache ⟨0, 0, 0, 0⟩ 3 11
     rfl rfl (Or.inl rfl)⟩

/-- Witness for claim C8: emit, close, emit — one unsubscribe call, and
the post-close emission is not forwarded. -/
theorem disconnect_cancels_once_witness :
    (∀ e ∈ [SessionEvent.emit (1 : Nat)], isClose e = false) ∧
    (∀ e ∈ [SessionEvent.emit (2 : Nat)], isClose e = false) ∧
    ((runSession initSession
        ([SessionEvent.emit (1 : Nat)] ++
          SessionEvent.clientClose :: [SessionEvent.emit 2])).unsubscribeCalls = 1 ∧
     (runSession initSession
        ([SessionEvent.emit (1 : Nat)] ++
          SessionEvent.clientClose :: [SessionEvent.emit 2])).forwarded =
       (runSession initSession [SessionEvent.emit (1 : Nat)]).forwarded) :=
  ⟨by decide, by decide,
   disconnect_cancels_once [SessionEvent.emit 1] [SessionEvent.emit 2]
     (by decide) (by decide)⟩

/-- Witness for claim C9: with document and validation errors cached, two
runs with different parse options and validation rules coincide and use
the cached artifacts. -/
theorem cache_hit_ignores_options_witness :
    (hitCache "q").bind (fun en => en.document) = some 3 ∧
    (hitCache "q").bind (fun en => en.validationErrors) = some [7] ∧
    (runPipeline Cok "q" 1 4 0 none hitCache ⟨0, 0, 0, 0⟩ =
       runPipeline Cok "q" 2 6 0 none hitCache ⟨0, 0, 0, 0⟩ ∧
     (runPipeline Cok "q" 1 4 0 none hitCache ⟨0, 0, 0, 0⟩).docUsed = some 3 ∧
     (runPipeline Cok "q" 1 4 0 none hitCache ⟨0, 0, 0, 0⟩).vErrsUsed = some [7]) :=
  ⟨rfl, rfl,
   cache_hit_ignores_options Cok "q" 0 none hitCache ⟨0, 0, 0, 0⟩ 3 [7] 1 2 4 6
     rfl rfl⟩

end GraphqlJit
